import Mathlib

/-!
Shallow embedding of the proctoring monitor of this repository
(`src/src/components/proctoringCamera.tsx` and its near-duplicate
`src/unnamed/part_000`), together with theorems settling the claims
about its warning throttler, geometry classifier, frame sampler,
camera acquisition and teardown.

Time is modelled as `Int` milliseconds (the value of `Date.now()`);
normalized bounding-box coordinates as `ℚ`.  Each synchronous callback
body is modelled as executing at a single instant `now`.
-/

namespace Proctoring

/-- The warning state of the monitor: the React `warning` state variable
together with the closure variable `lastWarningTime` (initially `0`). -/
structure WarningState where
  warning : Option String
  lastWarningTime : Int
deriving DecidableEq

/-- `showWarning` from the source (lines 13-19 of both variants):
if `now - lastWarningTime > 3000` set the warning to `msg` and record
`lastWarningTime = now`, otherwise do nothing. -/
def showWarning (s : WarningState) (msg : String) (now : Int) : WarningState :=
  if now - s.lastWarningTime > 3000 then
    { warning := some msg, lastWarningTime := now }
  else
    s

def noFaceMsg : String := "⚠️ Face not detected! Stay in front of camera"

def multipleFacesMsg : String := "⚠️ Multiple faces detected!"

def offScreenMsg : String := "⚠️ Please look at the screen!"

def lookingDownMsg : String := "⚠️ Don't look down! Possible phone usage"

def cameraBlockedMsg : String := "⚠️ Camera turned off or blocked!"

def permissionDeniedMsg : String := "⚠️ Camera permission denied!"

def tabSwitchMsg : String := "⚠️ Tab switch detected!"

def windowBlurMsg : String := "⚠️ Window changed or minimized!"

def fullscreenExitMsg : String := "⚠️ Fullscreen exited!"

def deviceChangeMsg : String := "⚠️ Camera/Microphone device changed!"

/-- A face bounding box as reported by the detection service: a
normalized center `(xCenter, yCenter)`. -/
structure BoundingBox where
  xCenter : ℚ
  yCenter : ℚ
deriving DecidableEq

/-- One detected face (`results.detections[i]`). -/
structure Detection where
  boundingBox : BoundingBox
deriving DecidableEq

/-- The sequence of messages the `faceDetector.onResults` callback
(lines 32-61 of `proctoringCamera.tsx`) passes to `showWarning` for one
frame, in order.  `none` models a null/undefined `results.detections`.
Note the single-face branch is two independent `if` statements in the
source, so it can emit two messages for one frame. -/
def onResultsMsgs : Option (List Detection) → List String
  | none => [noFaceMsg]
  | some [] => [noFaceMsg]
  | some (_ :: _ :: _) => [multipleFacesMsg]
  | some [face] =>
    let centerX := face.boundingBox.xCenter
    let centerY := face.boundingBox.yCenter
    (if centerX < 0.3 ∨ centerX > 0.7 ∨ centerY < 0.3 then [offScreenMsg] else [])
      ++ (if centerY > 0.75 then [lookingDownMsg] else [])

/-- The effect of the `faceDetector.onResults` callback on the warning
state, executing at instant `now`: each emitted message is passed to
`showWarning` in source order. -/
def onResults (detections : Option (List Detection)) (s : WarningState) (now : Int) :
    WarningState :=
  match detections with
  | none => showWarning s noFaceMsg now
  | some [] => showWarning s noFaceMsg now
  | some (_ :: _ :: _) => showWarning s multipleFacesMsg now
  | some [face] =>
    let centerX := face.boundingBox.xCenter
    let centerY := face.boundingBox.yCenter
    let s1 := if centerX < 0.3 ∨ centerX > 0.7 ∨ centerY < 0.3 then
        showWarning s offScreenMsg now
      else s
    if centerY > 0.75 then showWarning s1 lookingDownMsg now else s1

/-- Delivering a sequence of `(message, time)` signals to the throttler
in order. -/
def runSignals (s : WarningState) (sigs : List (String × Int)) : WarningState :=
  sigs.foldl (fun st p => showWarning st p.1 p.2) s

theorem showWarning_of_gt (s : WarningState) (msg : String) (now : Int)
    (h : now - s.lastWarningTime > 3000) :
    showWarning s msg now = ⟨some msg, now⟩ := by
  unfold showWarning
  rw [if_pos h]

theorem showWarning_of_le (s : WarningState) (msg : String) (now : Int)
    (h : now - s.lastWarningTime ≤ 3000) :
    showWarning s msg now = s := by
  unfold showWarning
  rw [if_neg (by omega)]

theorem runSignals_drop (sigs : List (String × Int)) :
    ∀ s : WarningState, (∀ p ∈ sigs, p.2 - s.lastWarningTime ≤ 3000) →
      runSignals s sigs = s := by
  induction sigs with
  | nil => intro s _; rfl
  | cons p rest ih =>
    intro s h
    have hstep : showWarning s p.1 p.2 = s :=
      showWarning_of_le s p.1 p.2 (h p (List.mem_cons_self p rest))
    have : runSignals s (p :: rest) = runSignals (showWarning s p.1 p.2) rest := rfl
    rw [this, hstep]
    exact ih s fun q hq => h q (List.mem_cons_of_mem p hq)

/-- C5: `showWarning` (the Warning Throttler's `accept`) overwrites the
warning with the new message and records `lastEmittedAt = now` when
`now - lastEmittedAt > 3000`, and otherwise drops the signal silently,
leaving both the message and `lastEmittedAt` unchanged. -/
theorem showWarning_accept_spec (s : WarningState) (msg : String) (now : Int) :
    (now - s.lastWarningTime > 3000 → showWarning s msg now = ⟨some msg, now⟩)
    ∧ (now - s.lastWarningTime ≤ 3000 → showWarning s msg now = s) :=
  ⟨showWarning_of_gt s msg now, showWarning_of_le s msg now⟩

theorem showWarning_accept_spec_case :
    showWarning ⟨none, 0⟩ tabSwitchMsg 4000 = ⟨some tabSwitchMsg, 4000⟩
    ∧ showWarning ⟨some tabSwitchMsg, 4000⟩ windowBlurMsg 5000
      = ⟨some tabSwitchMsg, 4000⟩ :=
  ⟨(showWarning_accept_spec ⟨none, 0⟩ tabSwitchMsg 4000).1 (by decide),
   (showWarning_accept_spec ⟨some tabSwitchMsg, 4000⟩ windowBlurMsg 5000).2 (by decide)⟩

/-- C2: over any delivery sequence, once a signal is accepted at time `t`,
every signal delivered while at most 3000ms have elapsed is dropped, so
the warning after the window is the first accepted signal's message and
never a later one; and a new signal is accepted exactly when more than
3000ms (hence at least 3000ms) have elapsed since the last acceptance. -/
theorem throttler_first_accepted_wins :
    (∀ (s0 : WarningState) (pre : List (String × Int)) (msg : String) (t : Int)
        (rest : List (String × Int)),
        (∀ p ∈ pre, p.2 - s0.lastWarningTime ≤ 3000) →
        t - s0.lastWarningTime > 3000 →
        (∀ p ∈ rest, p.2 - t ≤ 3000) →
        runSignals s0 (pre ++ (msg, t) :: rest) = ⟨some msg, t⟩)
    ∧ (∀ (s : WarningState) (msg : String) (now : Int),
        now - s.lastWarningTime > 3000 → showWarning s msg now = ⟨some msg, now⟩) := by
  constructor
  · intro s0 pre msg t rest hpre ht hrest
    have h1 : runSignals s0 (pre ++ (msg, t) :: rest)
        = runSignals (runSignals s0 pre) ((msg, t) :: rest) := by
      simp [runSignals, List.foldl_append]
    rw [h1, runSignals_drop pre s0 hpre]
    have h2 : runSignals s0 ((msg, t) :: rest)
        = runSignals (showWarning s0 msg t) rest := rfl
    rw [h2, showWarning_of_gt s0 msg t ht]
    exact runSignals_drop rest ⟨some msg, t⟩ hrest
  · exact showWarning_of_gt

theorem throttler_first_accepted_wins_case :
    runSignals ⟨none, 0⟩
      ([(tabSwitchMsg, 2000)] ++ (windowBlurMsg, 4000) :: [(fullscreenExitMsg, 6000)])
      = ⟨some windowBlurMsg, 4000⟩ :=
  throttler_first_accepted_wins.1 ⟨none, 0⟩ [(tabSwitchMsg, 2000)] windowBlurMsg 4000
    [(fullscreenExitMsg, 6000)] (by decide) (by decide) (by decide)

/-- C6: the Geometry Classifier's base cases — no detections yields the
no-face message; two detections yield the multiple-faces message
whatever their positions; a single centered face at (0.5, 0.5) yields no
signal; (0.2, 0.5) yields the off-screen message; (0.5, 0.8) yields the
looking-down message. -/
theorem classifier_basic_cases :
    onResultsMsgs (some []) = [noFaceMsg]
    ∧ (∀ a b : Detection, onResultsMsgs (some [a, b]) = [multipleFacesMsg])
    ∧ onResultsMsgs (some [⟨⟨0.5, 0.5⟩⟩]) = []
    ∧ onResultsMsgs (some [⟨⟨0.2, 0.5⟩⟩]) = [offScreenMsg]
    ∧ onResultsMsgs (some [⟨⟨0.5, 0.8⟩⟩]) = [lookingDownMsg] := by
  refine ⟨rfl, fun a b => rfl, ?_, ?_, ?_⟩ <;> norm_num [onResultsMsgs]

/-- C1 counterexample: at a single detection with x = 0.2, y = 0.8 (both
the off-screen and the looking-down conditions hold) the callback emits
TWO signals to the throttler, not exactly one — the two checks are two
independent if statements, not mutually exclusive branches. -/
theorem both_checks_fire_at_corner :
    onResultsMsgs (some [⟨⟨0.2, 0.8⟩⟩]) = [offScreenMsg, lookingDownMsg]
    ∧ (onResultsMsgs (some [⟨⟨0.2, 0.8⟩⟩])).length ≠ 1 := by
  constructor <;> norm_num [onResultsMsgs]

/-- C1 (amended): when both conditions hold for the sole detection, the
callback emits the off-screen signal first and the looking-down signal
second, at the same instant; the throttler can accept at most the first,
so the resulting warning is the off-screen message whenever accepted and
the state is unchanged otherwise — off-screen masks looking-down in the
observable warning, via the throttler rather than exclusive evaluation. -/
theorem offscreen_masks_lookingdown (cx cy : ℚ) (s : WarningState) (now : Int)
    (hoff : cx < 0.3 ∨ cx > 0.7 ∨ cy < 0.3) (hdown : cy > 0.75) :
    onResultsMsgs (some [⟨⟨cx, cy⟩⟩]) = [offScreenMsg, lookingDownMsg]
    ∧ (now - s.lastWarningTime > 3000 →
        onResults (some [⟨⟨cx, cy⟩⟩]) s now = ⟨some offScreenMsg, now⟩)
    ∧ (now - s.lastWarningTime ≤ 3000 → onResults (some [⟨⟨cx, cy⟩⟩]) s now = s) := by
  have e : onResults (some [⟨⟨cx, cy⟩⟩]) s now
      = (if cy > 0.75 then
          showWarning (if cx < 0.3 ∨ cx > 0.7 ∨ cy < 0.3 then
            showWarning s offScreenMsg now else s) lookingDownMsg now
        else (if cx < 0.3 ∨ cx > 0.7 ∨ cy < 0.3 then
            showWarning s offScreenMsg now else s)) := rfl
  refine ⟨?_, ?_, ?_⟩
  · simp only [onResultsMsgs]
    rw [if_pos hoff, if_pos hdown]
    rfl
  · intro h
    rw [e, if_pos hdown, if_pos hoff, showWarning_of_gt s offScreenMsg now h]
    exact showWarning_of_le ⟨some offScreenMsg, now⟩ lookingDownMsg now
      (by show now - now ≤ 3000; omega)
  · intro h
    rw [e, if_pos hdown, if_pos hoff, showWarning_of_le s offScreenMsg now h,
      showWarning_of_le s lookingDownMsg now h]

theorem offscreen_masks_lookingdown_case :
    (((0.2 : ℚ) < 0.3 ∨ (0.2 : ℚ) > 0.7 ∨ (0.8 : ℚ) < 0.3) ∧ (0.8 : ℚ) > 0.75)
    ∧ onResults (some [⟨⟨0.2, 0.8⟩⟩]) ⟨none, 0⟩ 5000 = ⟨some offScreenMsg, 5000⟩ :=
  ⟨⟨by norm_num, by norm_num⟩,
   (offscreen_masks_lookingdown 0.2 0.8 ⟨none, 0⟩ 5000 (by norm_num)
      (by norm_num)).2.1 (by decide)⟩

/-- The fields of the video element the `onFrame` callback reads. -/
structure VideoElement where
  readyState : Nat
  videoWidth : Nat
deriving DecidableEq

/-- The `onFrame` callback of the Camera (lines 66-79 of
`proctoringCamera.tsx`, 62-73 of the duplicate): given the current video
element (`none` models a null `videoRef.current`), returns the messages
passed to `showWarning` and the number of `faceDetector.send`
invocations for that frame. -/
def onFrame : Option VideoElement → List String × Nat
  | none => ([], 0)
  | some v =>
    if v.readyState < 2 ∨ v.videoWidth = 0 then ([cameraBlockedMsg], 0)
    else ([], 1)

/-- C8: for every delivered frame with a video element present, the
readiness check `readyState ≥ 2 ∧ videoWidth > 0` gates inference: if it
fails, the camera-blocked signal is emitted and the detection adapter is
not invoked; if it passes, the adapter is invoked exactly once and no
signal is emitted. -/
theorem onFrame_readiness_gate (v : VideoElement) :
    (¬(2 ≤ v.readyState ∧ 0 < v.videoWidth) → onFrame (some v) = ([cameraBlockedMsg], 0))
    ∧ ((2 ≤ v.readyState ∧ 0 < v.videoWidth) → onFrame (some v) = ([], 1)) := by
  constructor
  · intro h
    have hcond : v.readyState < 2 ∨ v.videoWidth = 0 := by omega
    simp only [onFrame]
    rw [if_pos hcond]
  · intro h
    have hcond : ¬(v.readyState < 2 ∨ v.videoWidth = 0) := by omega
    simp only [onFrame]
    rw [if_neg hcond]

theorem onFrame_readiness_gate_case :
    onFrame (some ⟨1, 320⟩) = ([cameraBlockedMsg], 0)
    ∧ onFrame (some ⟨4, 320⟩) = ([], 1) :=
  ⟨(onFrame_readiness_gate ⟨1, 320⟩).1 (by decide),
   (onFrame_readiness_gate ⟨4, 320⟩).2 (by decide)⟩

/-- Which of the four lifecycle listeners are currently registered. -/
structure ListenerSet where
  visibilitychange : Bool
  blur : Bool
  fullscreenchange : Bool
  devicechange : Bool
deriving DecidableEq

def ListenerSet.count (l : ListenerSet) : Nat :=
  (if l.visibilitychange then 1 else 0) + (if l.blur then 1 else 0)
    + (if l.fullscreenchange then 1 else 0) + (if l.devicechange then 1 else 0)

/-- The monitor's resources and state, as relevant to mount, the
`initCamera` continuations and the effect cleanup of
`src/unnamed/part_000`: the registered listeners, whether the mediapipe
`Camera` was created and started (`camera` non-null and running), the
number of live tracks of the stream obtained by the manual
`getUserMedia` call that are never explicitly stopped by any code path,
whether `videoRef.current` is non-null, and the warning state. -/
structure MonitorState where
  listeners : ListenerSet
  cameraStarted : Bool
  streamTracks : Nat
  videoRefSet : Bool
  warningState : WarningState
deriving DecidableEq

/-- The monitor before the effect body runs: nothing registered, no
camera, no stream, ref not yet attached, warning `null` with
`lastWarningTime = 0`. -/
def initialMonitor : MonitorState :=
  ⟨⟨false, false, false, false⟩, false, 0, false, ⟨none, 0⟩⟩

/-- The synchronous part of the effect body (`part_000` lines 9-100):
the video ref is attached by render, the four `addEventListener` calls
register the listeners, and `initCamera()` is kicked off (its await on
`getUserMedia` is still pending, so no camera and no stream yet). -/
def mount (m : MonitorState) : MonitorState :=
  { m with listeners := ⟨true, true, true, true⟩, videoRefSet := true }

/-- The continuation of `initCamera` (`part_000` lines 56-78) after
`getUserMedia` resolves with a granted stream: the stream's track is now
live; if `videoRef.current` is still set, the stream is attached, the
`Camera` is constructed and started; otherwise nothing further happens —
in particular no code ever stops the already-acquired stream's tracks. -/
def initCameraGranted (m : MonitorState) : MonitorState :=
  let m1 := { m with streamTracks := m.streamTracks + 1 }
  if m1.videoRefSet then { m1 with cameraStarted := true } else m1

/-- The catch branch of `initCamera` (`part_000` lines 79-81, equally
the `camera.start().catch` handler at `proctoringCamera.tsx` lines
84-86): the rejection is swallowed and the permission-denied message is
passed to `showWarning`; the camera is never started. -/
def initCameraDenied (m : MonitorState) (now : Int) : MonitorState :=
  { m with warningState := showWarning m.warningState permissionDeniedMsg now }

/-- The five statements of the effect cleanup (`part_000` lines
102-108), in source order: four `removeEventListener` calls, then
`if (camera) camera.stop()`. -/
inductive TeardownStep
  | removeVisibility
  | removeBlur
  | removeFullscreen
  | removeDevice
  | stopCamera
deriving DecidableEq

/-- The effect of one teardown statement when its external call
succeeds. -/
def applyStep : TeardownStep → MonitorState → MonitorState
  | .removeVisibility, m => { m with listeners := { m.listeners with visibilitychange := false } }
  | .removeBlur, m => { m with listeners := { m.listeners with blur := false } }
  | .removeFullscreen, m => { m with listeners := { m.listeners with fullscreenchange := false } }
  | .removeDevice, m => { m with listeners := { m.listeners with devicechange := false } }
  | .stopCamera, m => { m with cameraStarted := false }

/-- Runs teardown statements in order under JavaScript semantics: the
cleanup body has no try/catch, so the first external call that throws
leaves its own and all remaining statements without effect (the
exception propagates out of the cleanup function). `failing` says which
calls throw. -/
def runSteps (failing : TeardownStep → Bool) : List TeardownStep → MonitorState → MonitorState
  | [], m => m
  | step :: rest, m =>
    if failing step then m else runSteps failing rest (applyStep step m)

/-- The statement order of the cleanup body. -/
def cleanupOrder : List TeardownStep :=
  [.removeVisibility, .removeBlur, .removeFullscreen, .removeDevice, .stopCamera]

/-- Unmounting the component: the effect cleanup runs (here with no
release call throwing) and React detaches the ref, so
`videoRef.current` becomes null. -/
def unmount (m : MonitorState) : MonitorState :=
  { runSteps (fun _ => false) cleanupOrder m with videoRefSet := false }

/-- A late in-flight frame result: an earlier `faceDetector.send`
resolves after teardown and invokes the registered `onResults` callback,
which consults no stopped flag and so runs `showWarning` exactly as
before teardown. -/
def lateFrameResult (detections : Option (List Detection)) (m : MonitorState)
    (now : Int) : MonitorState :=
  { m with warningState := onResults detections m.warningState now }

/-- C3: evaluation at the failing input. After the cleanup has run
(mount then unmount, warning still `null`, `lastWarningTime = 0`), a
late in-flight frame result with zero detections delivered at
`now = 5000` still mutates the warning state to the no-face message:
the `onResults` callback checks no stopped flag before processing the
frame or accepting the signal. -/
theorem late_frame_mutates_after_teardown :
    (unmount (mount initialMonitor)).warningState = ⟨none, 0⟩
    ∧ (lateFrameResult (some []) (unmount (mount initialMonitor)) 5000).warningState
      = ⟨some noFaceMsg, 5000⟩
    ∧ (lateFrameResult (some []) (unmount (mount initialMonitor)) 5000).warningState
      ≠ (unmount (mount initialMonitor)).warningState := by
  refine ⟨rfl, by decide, by decide⟩

/-- C4: evaluation at the failing input. Starting from an active monitor
(all four listeners registered, camera started), a cleanup in which no
release call throws removes everything; but if the single
`removeEventListener` call for blur throws, the cleanup body — which has
no try/catch — aborts there: the blur, fullscreenchange and devicechange
listeners stay registered and the camera is never stopped, so release
steps are not attempted independently of prior errors. -/
theorem teardown_aborts_when_release_throws :
    (runSteps (fun _ => false) cleanupOrder
        ⟨⟨true, true, true, true⟩, true, 1, true, ⟨none, 0⟩⟩).listeners
      = ⟨false, false, false, false⟩
    ∧ (runSteps (fun _ => false) cleanupOrder
        ⟨⟨true, true, true, true⟩, true, 1, true, ⟨none, 0⟩⟩).cameraStarted = false
    ∧ (runSteps (fun s => match s with | .removeBlur => true | _ => false) cleanupOrder
        ⟨⟨true, true, true, true⟩, true, 1, true, ⟨none, 0⟩⟩).listeners
      = ⟨false, true, true, true⟩
    ∧ (runSteps (fun s => match s with | .removeBlur => true | _ => false) cleanupOrder
        ⟨⟨true, true, true, true⟩, true, 1, true, ⟨none, 0⟩⟩).cameraStarted = true := by
  refine ⟨rfl, rfl, rfl, rfl⟩

/-- C9: evaluation at the failing input. Mount, then unmount before the
camera permission resolves, then the `getUserMedia` promise resolves
with a granted stream: no exception is raised (the `videoRef.current`
guard skips camera creation) and zero listeners remain, but the track of
the just-acquired stream stays open forever — no code path stops it —
so one camera track is leaked. -/
theorem fast_unmount_leaks_stream_tracks :
    (initCameraGranted (unmount (mount initialMonitor))).listeners.count = 0
    ∧ (initCameraGranted (unmount (mount initialMonitor))).cameraStarted = false
    ∧ (initCameraGranted (unmount (mount initialMonitor))).streamTracks = 1 := by
  refine ⟨rfl, rfl, rfl⟩

/-- C7 counterexample: when the permission denial is reported 1000ms
after another signal was accepted (tab switch accepted at t = 1000,
denial at t = 2000), the permission-denied message is NOT surfaced: the
warning still shows the tab-switch message, so the failure is not
unconditionally surfaced as a persistent advisory warning. -/
theorem permission_denied_not_surfaced_in_window :
    (initCameraDenied ⟨⟨true, true, true, true⟩, false, 0, true,
        ⟨some tabSwitchMsg, 1000⟩⟩ 2000).warningState.warning
      ≠ some permissionDeniedMsg := by decide

/-- C7 (amended): when camera acquisition fails, the rejection is caught
rather than thrown, the camera is never started and all other monitor
state is left intact (the host keeps running); the permission-denied
message is routed to the warning throttler and is surfaced as the
advisory warning exactly when more than 3000ms have elapsed since the
last accepted signal (in particular on a fresh monitor), and may
otherwise be dropped. -/
theorem permission_denied_surfaced_when_accepted (m : MonitorState) (now : Int) :
    (now - m.warningState.lastWarningTime > 3000 →
      (initCameraDenied m now).warningState = ⟨some permissionDeniedMsg, now⟩)
    ∧ (initCameraDenied m now).cameraStarted = m.cameraStarted
    ∧ (initCameraDenied m now).listeners = m.listeners
    ∧ (initCameraDenied m now).streamTracks = m.streamTracks := by
  refine ⟨?_, rfl, rfl, rfl⟩
  intro h
  exact showWarning_of_gt m.warningState permissionDeniedMsg now h

theorem permission_denied_surfaced_when_accepted_case :
    (initCameraDenied (mount initialMonitor) 5000).warningState
      = ⟨some permissionDeniedMsg, 5000⟩
    ∧ (initCameraDenied (mount initialMonitor) 5000).cameraStarted
      = (mount initialMonitor).cameraStarted :=
  ⟨(permission_denied_surfaced_when_accepted (mount initialMonitor) 5000).1 (by decide),
   (permission_denied_surfaced_when_accepted (mount initialMonitor) 5000).2.1⟩

/-- C10: the permission-denied warning goes through the same throttle as
every other signal: whenever any signal was accepted less than 3000ms
before the denial is reported, the permission-denied message is silently
dropped — the monitor state, and in particular the displayed warning,
is completely unchanged. -/
theorem permission_denied_throttled_drop (m : MonitorState) (now : Int)
    (h : now - m.warningState.lastWarningTime < 3000) :
    initCameraDenied m now = m := by
  show ({ m with
    warningState := showWarning m.warningState permissionDeniedMsg now } : MonitorState) = m
  rw [showWarning_of_le m.warningState permissionDeniedMsg now (by omega)]

theorem permission_denied_throttled_drop_case :
    initCameraDenied ⟨⟨true, true, true, true⟩, false, 0, true,
        ⟨some cameraBlockedMsg, 1000⟩⟩ 2500
      = ⟨⟨true, true, true, true⟩, false, 0, true, ⟨some cameraBlockedMsg, 1000⟩⟩ :=
  permission_denied_throttled_drop
    ⟨⟨true, true, true, true⟩, false, 0, true, ⟨some cameraBlockedMsg, 1000⟩⟩ 2500 (by decide)

end Proctoring
